import Mathlib

/-!
Shallow embedding of the simple question-answering agent
(src/all_agents_tutorials/simple_question_answering_agent.ipynb).

The notebook holds three pieces of logic:
* cell-2: environment setup, assigning the value of the OPENAI_API_KEY
  environment variable back into the process environment;
* cell-4: the client configuration
  `llm = ChatOpenAI(model="gpt-4o-mini", max_tokens=1000, temperature=0)`;
* cell-6/8/10: a fixed template with one substitution slot, the chain
  `qa_chain = prompt | llm`, and `get_answer`, which formats the template
  with the question, invokes the chain once, and returns the content
  attribute of the response.

The external LLM service is modelled as an oracle function from the prompt
string to an outcome: either a response object (whose content attribute may
be missing, modelled with Option) or a transport fault.  Outbound requests
are made observable by threading an explicit log of the requests issued, so
that call counts and the request payload can be stated.  Python exceptions
are modelled with Except: a transport-level failure of the client maps to
transportError, an attribute-access failure on the response object
(AttributeError on a duck-typed access) maps to responseShapeError, and a
setup failure (TypeError from assigning None into os.environ, or a missing
credential rejected by the client constructor) maps to configurationError.
-/

set_option maxRecDepth 8192

/-- Error taxonomy of the agent, following the exceptions the Python code
can raise: configurationError at setup or construction, transportError when
the network call fails, responseShapeError when the response object lacks
the content attribute. -/
inductive AgentError where
  | configurationError
  | transportError
  | responseShapeError
deriving DecidableEq, Repr

/-- The response object returned by the chat client.  The content field is
the textual payload; `none` models a duck-typed response object on which the
content attribute is missing, so that accessing it raises. -/
structure ChatResponse where
  content : Option String
deriving DecidableEq, Repr

/-- Outcome of one invocation of the external LLM client: either a response
object, or a transport-level fault raised before any response exists. -/
inductive ClientOutcome where
  | success (response : ChatResponse)
  | transportFault
deriving DecidableEq, Repr

/-- The read-only client configuration record held by the chat model
object: model identifier, maximum output token budget, sampling
temperature (an exact integer 0 in the source). -/
structure LLMConfig where
  model : String
  max_tokens : Nat
  temperature : Nat
deriving DecidableEq, Repr

/-- cell-4: `llm = ChatOpenAI(model="gpt-4o-mini", max_tokens=1000,
temperature=0)`. -/
def llm : LLMConfig :=
  { model := "gpt-4o-mini", max_tokens := 1000, temperature := 0 }

/-- cell-6: the template literal, verbatim (the slot braces are written as
hex escapes).  The triple-quoted Python literal begins and ends with a
newline. -/
def template : String :=
  "\nYou are a helpful AI assistant. Your task is to answer the user\x27s question to the best of your ability.\n\nUser\x27s question: \x7bquestion\x7d\n\nPlease provide a clear and concise answer:\n"

/-- The fixed text of the template standing before its single slot. -/
def templateBefore : String :=
  "\nYou are a helpful AI assistant. Your task is to answer the user\x27s question to the best of your ability.\n\nUser\x27s question: "

/-- The fixed text of the template standing after its single slot. -/
def templateAfter : String :=
  "\n\nPlease provide a clear and concise answer:\n"

/-- The template is exactly the fixed front text, the slot, and the fixed
back text: the decomposition used by the formatter below is faithful. -/
theorem template_decomposition :
    template = templateBefore ++ "\x7bquestion\x7d" ++ templateAfter := by
  decide

/-- cell-6/10: formatting the PromptTemplate with a dictionary of input
variables.  Python str.format substitutes the value bound to the key
"question" into the single slot of the template; when the key is absent the
lookup raises, modelled by `none`. -/
def formatTemplate (input_variables : List (String × String)) :
    Option String :=
  match input_variables.lookup "question" with
  | none => none
  | some q => some (templateBefore ++ q ++ templateAfter)

/-- Rendering the template with a question string: the prompt produced by
`prompt.format` inside the chain, a pure string concatenation. -/
def render (question : String) : String :=
  templateBefore ++ question ++ templateAfter

/-- One outbound request to the remote completion endpoint: the
configuration triple of the client together with the rendered prompt. -/
structure Request where
  model : String
  prompt : String
  max_tokens : Nat
  temperature : Nat
deriving DecidableEq, Repr

/-- The request submitted by the chat model for a given prompt, carrying
the configured model, token budget and temperature. -/
def mkRequest (cfg : LLMConfig) (prompt : String) : Request :=
  { model := cfg.model, prompt := prompt,
    max_tokens := cfg.max_tokens, temperature := cfg.temperature }

/-- Invoking the chat model on a prompt: issues exactly one outbound
request (appended to the log) and yields whatever outcome the external
service produces for that prompt. -/
def invokeClient (client : String → ClientOutcome) (cfg : LLMConfig)
    (prompt : String) (log : List Request) :
    ClientOutcome × List Request :=
  (client prompt, log ++ [mkRequest cfg prompt])

/-- cell-8: `qa_chain = prompt | llm` applied to the input variables.  The
first stage of the pipe is the pure template formatting; it touches the
request log in no way, which the state-passing form makes explicit. -/
def prompt_format (question : String) (log : List Request) :
    String × List Request :=
  (render question, log)

/-- cell-10: `get_answer(question)` formats the prompt from the question,
invokes the chain once, and returns the content attribute of the response
object verbatim.  A transport fault of the client propagates as
transportError; a response object missing the content attribute propagates
as responseShapeError; nothing is caught, retried or replaced by a
default. -/
def get_answer (client : String → ClientOutcome) (question : String)
    (log : List Request) : Except AgentError String × List Request :=
  let input_variables := question
  let formatted := prompt_format input_variables log
  match invokeClient client llm formatted.1 formatted.2 with
  | (ClientOutcome.transportFault, log2) =>
      (Except.error AgentError.transportError, log2)
  | (ClientOutcome.success resp, log2) =>
      match resp.content with
      | none => (Except.error AgentError.responseShapeError, log2)
      | some c => (Except.ok c, log2)

/-- cell-2: after `load_dotenv`, the line
`os.environ["OPENAI_API_KEY"] = os.getenv("OPENAI_API_KEY")` re-assigns
the credential.  When the variable is absent, os.getenv yields None and
assigning None into os.environ raises a TypeError, i.e. setup fails before
the client is ever constructed. -/
def setupCredential (env : Option String) : Except AgentError String :=
  match env with
  | none => Except.error AgentError.configurationError
  | some key => Except.ok key

/-- Modelled from the spec: the construction of the chat client in cell-4
validates the resolved credential inside external library code that is not
part of this repository; per the spec it fails at construction time when
the credential is empty, and yields the configured service otherwise. -/
def constructClient (key : String) : Except AgentError LLMConfig :=
  if key = "" then Except.error AgentError.configurationError
  else Except.ok llm

/-- Construction of the answer service: resolve the credential from the
environment (cell-2), then construct the configured client (cell-4).  Only
a successful construction yields the configuration that ask calls bind. -/
def constructAnswerService (env : Option String) :
    Except AgentError LLMConfig :=
  match setupCredential env with
  | Except.error e => Except.error e
  | Except.ok key => constructClient key

/-- Stub client that answers every prompt with content "Paris.". -/
def parisStub : String → ClientOutcome :=
  fun _ => ClientOutcome.success { content := some "Paris." }

/-- Stub client whose response object lacks the content attribute. -/
def missingContentStub : String → ClientOutcome :=
  fun _ => ClientOutcome.success { content := none }

/-- Stub client that raises a transport fault on every prompt. -/
def faultStub : String → ClientOutcome :=
  fun _ => ClientOutcome.transportFault

/-- Claim C1: for every question q, get_answer returns exactly the textual
content field of the response the client produced for the rendered prompt,
verbatim, with no trimming, post-processing or non-emptiness validation. -/
theorem get_answer_returns_content_verbatim
    (client : String → ClientOutcome) (q a : String) (log : List Request)
    (h : client (render q) = ClientOutcome.success { content := some a }) :
    (get_answer client q log).1 = Except.ok a := by
  simp [get_answer, invokeClient, prompt_format, h]

/-- Witness for C1: with a stubbed client that always returns content
"Paris.", asking for the capital of France returns exactly "Paris.". -/
theorem get_answer_returns_content_verbatim_witness :
    parisStub (render "What is the capital of France?") =
      ClientOutcome.success { content := some "Paris." } ∧
    (get_answer parisStub "What is the capital of France?" []).1 =
      Except.ok "Paris." :=
  ⟨rfl, get_answer_returns_content_verbatim parisStub
    "What is the capital of France?" "Paris." [] rfl⟩

/-- Claim C2: for every question string q, the rendered prompt contains q
verbatim as a substring, and the remaining fixed framing text is identical
regardless of q (the constant front and back texts of the template). -/
theorem render_contains_question (q : String) :
    (∃ l r, (render q).data = l ++ q.data ++ r) ∧
    render q = templateBefore ++ q ++ templateAfter := by
  refine ⟨⟨templateBefore.data, templateAfter.data, ?_⟩, rfl⟩
  simp [render, String.data_append]

/-- Claim C3: rendering is total and pure over strings: formatting the
template with any question string (empty included) succeeds without error
and yields the deterministic value render q. -/
theorem formatTemplate_total_and_pure (q : String) :
    formatTemplate [("question", q)] = some (render q) := rfl

/-- Claim C4: when the client returns a response object lacking the
content field, get_answer fails with responseShapeError and never returns
any string (so in particular no silent null or empty answer). -/
theorem get_answer_missing_content_fails
    (client : String → ClientOutcome) (q : String) (log : List Request)
    (h : client (render q) = ClientOutcome.success { content := none }) :
    (get_answer client q log).1 =
      Except.error AgentError.responseShapeError ∧
    ∀ a : String, (get_answer client q log).1 ≠ Except.ok a := by
  have hmain : (get_answer client q log).1 =
      Except.error AgentError.responseShapeError := by
    simp [get_answer, invokeClient, prompt_format, h]
  exact ⟨hmain, fun a hcontra => by simp [hmain] at hcontra⟩

/-- Witness for C4: a stub whose response object has no content field makes
get_answer fail with responseShapeError. -/
theorem get_answer_missing_content_fails_witness :
    missingContentStub (render "q") =
      ClientOutcome.success { content := none } ∧
    (get_answer missingContentStub "q" []).1 =
      Except.error AgentError.responseShapeError :=
  ⟨rfl, (get_answer_missing_content_fails missingContentStub "q" [] rfl).1⟩

/-- Claim C5: when the client raises a transport fault, get_answer
propagates transportError without catching, converting or retrying: the
request log grows by exactly one entry on the failing call. -/
theorem get_answer_transport_fault_propagates
    (client : String → ClientOutcome) (q : String) (log : List Request)
    (h : client (render q) = ClientOutcome.transportFault) :
    (get_answer client q log).1 = Except.error AgentError.transportError ∧
    ((get_answer client q log).2).length = log.length + 1 := by
  constructor
  · simp [get_answer, invokeClient, prompt_format, h]
  · simp [get_answer, invokeClient, prompt_format, h]

/-- Witness for C5: a stub that always raises a transport fault makes
get_answer fail with transportError, and starting from an empty log the
failing call leaves exactly one recorded request. -/
theorem get_answer_transport_fault_propagates_witness :
    faultStub (render "q") = ClientOutcome.transportFault ∧
    (get_answer faultStub "q" []).1 =
      Except.error AgentError.transportError ∧
    ((get_answer faultStub "q" []).2).length = 0 + 1 :=
  ⟨rfl, (get_answer_transport_fault_propagates faultStub "q" [] rfl).1,
    (get_answer_transport_fault_propagates faultStub "q" [] rfl).2⟩

/-- Claim C6: when the credential is absent or empty in the process
environment, construction of the answer service fails with
configurationError, so no configured service value exists on which an ask
call could be made; the failure is not deferred to call time. -/
theorem construction_fails_without_credential
    (env : Option String) (h : env = none ∨ env = some "") :
    constructAnswerService env =
      Except.error AgentError.configurationError := by
  rcases h with h | h <;> subst h <;> rfl

/-- Witness for C6: construction with the credential absent from the
environment fails with configurationError. -/
theorem construction_fails_without_credential_witness :
    ((none : Option String) = none ∨ (none : Option String) = some "") ∧
    constructAnswerService none =
      Except.error AgentError.configurationError :=
  ⟨Or.inl rfl, construction_fails_without_credential none (Or.inl rfl)⟩

/-- Claim C7: a single get_answer call performs exactly one outbound
request (the log grows by exactly the one request carrying the rendered
prompt), while the template-formatting stage alone performs none (it
leaves the request log unchanged). -/
theorem ask_exactly_one_request
    (client : String → ClientOutcome) (q : String) (log : List Request) :
    (prompt_format q log).2 = log ∧
    (get_answer client q log).2 = log ++ [mkRequest llm (render q)] := by
  refine ⟨rfl, ?_⟩
  cases h : client (render q) with
  | success resp =>
      cases hc : resp.content <;>
        simp [get_answer, invokeClient, prompt_format, h, hc]
  | transportFault =>
      simp [get_answer, invokeClient, prompt_format, h]

/-- Claim C8: the client configuration is fixed to model "gpt-4o-mini",
max output tokens 1000 and temperature 0, and every get_answer call
submits its single request bound by exactly this triple. -/
theorem llm_config_fixed
    (client : String → ClientOutcome) (q : String) (log : List Request) :
    llm.model = "gpt-4o-mini" ∧ llm.max_tokens = 1000 ∧
    llm.temperature = 0 ∧
    (get_answer client q log).2 =
      log ++ [{ model := "gpt-4o-mini", prompt := render q,
                max_tokens := 1000, temperature := 0 }] := by
  refine ⟨rfl, rfl, rfl, ?_⟩
  cases h : client (render q) with
  | success resp =>
      cases hc : resp.content <;>
        simp [get_answer, invokeClient, prompt_format, mkRequest, llm,
          h, hc]
  | transportFault =>
      simp [get_answer, invokeClient, prompt_format, mkRequest, llm, h]

/-- Claim C9: the rendered prompt is exactly the fixed prefix text, then
the question, then the fixed suffix text: a pure two-sided concatenation
with no escaping or transformation of the question. -/
theorem render_is_two_sided_concatenation (q : String) :
    render q =
      "\nYou are a helpful AI assistant. Your task is to answer the user\x27s question to the best of your ability.\n\nUser\x27s question: "
        ++ q ++ "\n\nPlease provide a clear and concise answer:\n" := rfl

/-- Claim C10: the answer of get_answer is fully determined by the
question and the client function: it does not depend on any ambient
request-log state, and a repeated call after a first one returns the same
answer (the call mutates nothing that influences later calls). -/
theorem get_answer_determined_by_question_and_client
    (client : String → ClientOutcome) (q : String)
    (log1 log2 : List Request) :
    (get_answer client q log1).1 = (get_answer client q log2).1 ∧
    (get_answer client q ((get_answer client q log1).2)).1 =
      (get_answer client q log1).1 := by
  constructor <;>
    · cases h : client (render q) with
      | success resp =>
          cases hc : resp.content <;>
            simp [get_answer, invokeClient, prompt_format, h, hc]
      | transportFault =>
          simp [get_answer, invokeClient, prompt_format, h]
